import Mathlib

/-!
Shallow embedding of the employee-attrition prediction service
(`backend/app.py`, with the trained bundle produced by
`backend/save_model.py`).

The service keeps three module-level globals set together by `load_model`
(`model`, `cat_features`, `feature_order`); we model the loaded state as an
`Option ModelBundle`.  The opaque CatBoost classifier is abstracted by the
three calls `app.py` makes on it: `predict` (a discrete label), a
`predict_proba` row `[P(stay), P(leave)]`, and `get_feature_importance`
(which may raise, modelled as `none`).  Floating-point values from the model
and from Python `float()` are modelled as exact rationals.  JSON request
bodies are association lists of scalar values; `request.json` raising for a
body that cannot be parsed as JSON (an unparseable or empty body, inside the
handler's try block) is modelled as `none`, while a body that parses to a
falsy value is represented by the empty object.
-/

set_option autoImplicit false

namespace AttritionApp

/-- A scalar JSON value as delivered to the handler by request parsing. -/
inductive JValue where
  | str (s : String)
  | num (q : ℚ)
  | jbool (b : Bool)
  | null
  deriving DecidableEq

/-- A parsed request body: the JSON object, as a key/value association list. -/
abbrev RequestData := List (String × JValue)

/-- Python `str()` applied to a scalar JSON value. -/
def pyStr : JValue → String
  | .str s => s
  | .num q => toString q
  | .jbool b => if b then "True" else "False"
  | .null => "None"

/-- The value of a list of decimal digit characters, most significant first. -/
def natOfDigits (l : List Char) : ℕ :=
  l.foldl (fun a c => a * 10 + (c.toNat - 48)) 0

/-- Strip leading and trailing whitespace, as Python `float()` does to its
string argument before parsing. -/
def stripWS (cs : List Char) : List Char :=
  ((cs.dropWhile Char.isWhitespace).reverse.dropWhile Char.isWhitespace).reverse

/-- Parse the unsigned mantissa of a decimal float literal: digits with an
optional fractional part, at least one digit overall.  Returns the combined
mantissa digits as a natural number, the count of fractional digits, and the
unconsumed characters (the literal value is `mantissa * 10 ^ (-fracLen)`). -/
def parseMantissa (cs : List Char) : Option (ℕ × ℕ × List Char) :=
  let ip := cs.takeWhile Char.isDigit
  let r1 := cs.dropWhile Char.isDigit
  let withFrac : List Char × List Char :=
    match r1 with
    | '.' :: r => (r.takeWhile Char.isDigit, r.dropWhile Char.isDigit)
    | _ => ([], r1)
  let fp := withFrac.1
  let r2 := withFrac.2
  if ip.isEmpty && fp.isEmpty then none
  else some (natOfDigits (ip ++ fp), fp.length, r2)

/-- Parse an optional exponent suffix `e`/`E`, optional sign, digits. -/
def parseExponent (cs : List Char) : Option (ℤ × List Char) :=
  match cs with
  | 'e' :: r | 'E' :: r =>
    let signed : ℤ × List Char :=
      match r with
      | '+' :: t => (1, t)
      | '-' :: t => (-1, t)
      | _ => (1, r)
    let ds := signed.2.takeWhile Char.isDigit
    let r2 := signed.2.dropWhile Char.isDigit
    if ds.isEmpty then none else some (signed.1 * (natOfDigits ds : ℤ), r2)
  | _ => some (0, cs)

/-- Modelled from Python's builtin `float()` applied to a string (the
builtin is not part of this repository): surrounding whitespace is stripped,
then an optional sign, decimal digits with an optional fractional part and
an optional exponent must consume the whole string.  The special spellings
`inf`/`nan` and underscore digit separators fall outside the rational value
model and are not represented. -/
def pyFloatOfString (s : String) : Option ℚ :=
  let cs := stripWS s.data
  let signed : ℤ × List Char :=
    match cs with
    | '+' :: t => (1, t)
    | '-' :: t => (-1, t)
    | _ => (1, cs)
  match parseMantissa signed.2 with
  | none => none
  | some (mant, fracLen, r) =>
    match parseExponent r with
    | none => none
    | some (e, r2) =>
      if r2.isEmpty then
        let shift : ℤ := e - fracLen
        if 0 ≤ shift then some (mkRat (signed.1 * mant * 10 ^ shift.toNat) 1)
        else some (mkRat (signed.1 * mant) (10 ^ (-shift).toNat))
      else none

/-- Python `float()` on a scalar JSON value: numbers (and booleans) convert
directly, strings are parsed, `None` raises `TypeError`. -/
def pyFloat : JValue → Option ℚ
  | .num q => some q
  | .str s => pyFloatOfString s
  | .jbool b => some (if b then 1 else 0)
  | .null => none

/-- `str(e)` for the exception raised by a failed `float()` call. -/
def floatErrMsg : JValue → String
  | .str s => "could not convert string to float: \x27" ++ s ++ "\x27"
  | _ => "float() argument must be a string or a real number"

/-- `str(e)` for a Python `KeyError` on key `k`. -/
def keyErrMsg (k : String) : String := "\x27" ++ k ++ "\x27"

/-- A cell of the single-row DataFrame handed to the model: the categorical
columns hold text, `Promotion_Gap` holds a float. -/
inductive CellValue where
  | text (s : String)
  | real (q : ℚ)
  deriving DecidableEq

/-- The Overtime normalization `str(x).replace(\x7b en dash \x7d, "-")`
(`app.py` line 79): replacing a one-character pattern by a one-character
replacement acts characterwise on the string. -/
def normalizeEnDash (s : String) : String :=
  ⟨s.data.map (fun c => if c = '–' then '-' else c)⟩

/-- The opaque trained classifier, abstracted by the three calls `app.py`
makes on it.  `predictLabel` is `model.predict(input)[0]` (as `int()`),
`predictProba` is the row `model.predict_proba(input)[0]` of the binary
classifier, and `featureImportance` is `model.get_feature_importance()`
(`none` models the call raising for unsupported model types). -/
structure CBModel where
  predictLabel : List CellValue → ℤ
  predictProba : List CellValue → ℚ × ℚ
  featureImportance : Option (List ℚ)

/-- The deserialized bundle `\x7bmodel, cat_features, feature_order\x7d`. -/
structure ModelBundle where
  model : CBModel
  cat_features : List String
  feature_order : List String

/-- A dictionary access `data[k]`, raising `KeyError` when absent. -/
def getArg (k : String) : Option JValue → Except String JValue
  | some v => .ok v
  | none => .error (keyErrMsg k)

/-- The coercion `float(data[..])`, raising on non-numeric values. -/
def toFloat (v : JValue) : Except String ℚ :=
  match pyFloat v with
  | some q => .ok q
  | none => .error (floatErrMsg v)

/-- The single-row DataFrame literal of `app.py` lines 77-86, as a function
of the eight dictionary accesses it performs; the Python dict literal
evaluates its entries in order, so the first failing access or coercion
determines the raised exception. -/
def buildRowOf (depV otV pgV jsV arV rlV secV mdV : Option JValue) :
    Except String (List (String × CellValue)) := do
  let dep ← getArg "Department" depV
  let ot ← getArg "Overtime" otV
  let pgRaw ← getArg "Promotion_Gap" pgV
  let pg ← toFloat pgRaw
  let js ← getArg "Job_Satisfaction" jsV
  let ar ← getArg "AI_Automation_Risk" arV
  let rl ← getArg "Recent_Layoffs" rlV
  let sec ← getArg "Job_Security" secV
  let md ← getArg "Market_Demand" mdV
  pure [("Department", .text (pyStr dep)),
        ("Overtime", .text (normalizeEnDash (pyStr ot))),
        ("Promotion_Gap", .real pg),
        ("Job_Satisfaction", .text (pyStr js)),
        ("AI_Automation_Risk", .text (pyStr ar)),
        ("Recent_Layoffs", .text (pyStr rl)),
        ("Job_Security", .text (pyStr sec)),
        ("Market_Demand", .text (pyStr md))]

/-- The single-row DataFrame built from the request body. -/
def buildRow (d : RequestData) : Except String (List (String × CellValue)) :=
  buildRowOf (d.lookup "Department") (d.lookup "Overtime") (d.lookup "Promotion_Gap")
    (d.lookup "Job_Satisfaction") (d.lookup "AI_Automation_Risk") (d.lookup "Recent_Layoffs")
    (d.lookup "Job_Security") (d.lookup "Market_Demand")

/-- The column selection `input_data[feature_order]` (`app.py` line 89):
pandas reorders the columns, raising `KeyError` when a requested column is
absent from the frame. -/
def reorderRow (row : List (String × CellValue)) : List String → Except String (List CellValue)
  | [] => .ok []
  | f :: fs =>
    match row.lookup f with
    | none => .error (keyErrMsg f)
    | some v => do
      let rest ← reorderRow row fs
      pure (v :: rest)

/-- The assembled prediction result (`app.py` lines 109-118). -/
structure PredictResult where
  prediction : ℤ
  prediction_label : String
  probability_stay : ℚ
  probability_leave : ℚ
  confidence : ℚ
  feature_importance : Option (List (String × ℚ))
  deriving DecidableEq

/-- The three response shapes of the predict handler: HTTP 200 with a
result body, HTTP 400 with `\x7berror: string\x7d`, HTTP 500 with
`\x7berror: string\x7d`. -/
inductive PredictResponse where
  | ok (r : PredictResult)
  | clientError (error : String)
  | serverError (error : String)
  deriving DecidableEq

def PredictResponse.isClientError : PredictResponse → Bool
  | .clientError _ => true
  | _ => false

def notLoadedMsg : String := "Model not loaded. Please check server logs."

def noDataMsg : String := "No data provided in request"

/-- Modelled from the web framework (not part of this repository): the
`str(e)` text of the exception `request.json` raises for a body that cannot
be parsed as JSON; the precise text varies with the framework version, and
no theorem below depends on it. -/
def parseFailMsg : String := "400 Bad Request: Failed to decode JSON object"

/-- The 400 message `f-string` of `app.py` line 72. -/
def missingMsg (fields : List String) : String :=
  "Missing required fields: " ++ String.intercalate ", " fields

/-- Model invocation and result assembly (`app.py` lines 96-118): the
discrete label, the probability row, the best-effort feature importance
(`dict(zip(feature_order, importance))`, skipped when the call raises), and
the response dictionary with `confidence = float(max(probability))`. -/
def runModel (b : ModelBundle) (cells : List CellValue) : PredictResult :=
  let pred := b.model.predictLabel cells
  let p := b.model.predictProba cells
  { prediction := pred
    prediction_label := if pred = 1 then "Yes (Likely to Leave)" else "No (Likely to Stay)"
    probability_stay := p.1
    probability_leave := p.2
    confidence := max p.1 p.2
    feature_importance :=
      match b.model.featureImportance with
      | some imp => some (b.feature_order.zip imp)
      | none => none }

/-- The predict handler (`app.py` lines 53-128).  `st` is the loaded-bundle
state after startup; `data` is the outcome of `request.json`: `none` when
the body cannot be parsed as JSON (an unparseable or empty body makes
`request.json` raise inside the handler's try block, so the blanket
`except` returns the exception's text as a 500), `some d` when the body
parses to an object (a body parsing to a falsy value, such as the empty
object, is `some []`, and makes `if not data` fire).  Exceptions raised
further down the handler body (`KeyError`, the `float()` coercion error,
the pandas column `KeyError`) are likewise caught by the blanket `except`
and surfaced as a 500 with the exception's message. -/
def predict (st : Option ModelBundle) (data : Option RequestData) : PredictResponse :=
  match st with
  | none => .serverError notLoadedMsg
  | some b =>
    match data with
    | none => .serverError parseFailMsg
    | some d =>
      if d.isEmpty then .clientError noDataMsg
      else
        let missing_fields := b.feature_order.filter (fun f => (d.lookup f).isNone)
        if missing_fields.isEmpty then
          match buildRow d with
          | .error e => .serverError e
          | .ok row =>
            match reorderRow row b.feature_order with
            | .error e => .serverError e
            | .ok cells => .ok (runModel b cells)
        else .clientError (missingMsg missing_fields)

/-- The health response `\x7bstatus, model_loaded\x7d` (`app.py` 45-51). -/
structure HealthResponse where
  status : String
  model_loaded : Bool
  deriving DecidableEq

def health_check (st : Option ModelBundle) : HealthResponse :=
  { status := "healthy", model_loaded := st.isSome }

/-- The state of the bundle file at the configured path. -/
inductive FileState where
  | absent
  | corrupt (msg : String)
  | valid (b : ModelBundle)

inductive LoadError where
  | modelNotFound (msg : String)
  | modelLoadError (msg : String)

/-- `load_model` (`app.py` lines 20-37): a missing file raises
`FileNotFoundError`; a present but unreadable file has its exception logged
and re-raised. -/
def load_model : FileState → Except LoadError ModelBundle
  | .absent => .error (.modelNotFound "Model file not found")
  | .corrupt m => .error (.modelLoadError m)
  | .valid b => .ok b

/-- Module-level startup (`app.py` lines 40-43): `FileNotFoundError` is
caught with a warning and the process continues with no bundle loaded; any
other load failure propagates and the process fails to start (`none`). -/
def startup (fs : FileState) : Option (Option ModelBundle) :=
  match load_model fs with
  | .ok b => some (some b)
  | .error (.modelNotFound _) => some none
  | .error (.modelLoadError _) => none

/-- The feature order fixed by the training script
(`save_model.py`: `feature_order = list(X.columns)`). -/
def standardFeatureOrder : List String :=
  ["Department", "Overtime", "Promotion_Gap", "Job_Satisfaction",
   "AI_Automation_Risk", "Recent_Layoffs", "Job_Security", "Market_Demand"]

/-- A concrete classifier used to instantiate the theorems on explicit
inputs: constant label 1, constant probability row `[1/4, 3/4]`, and no
feature-importance support. -/
def model0 : CBModel :=
  { predictLabel := fun _ => 1
    predictProba := fun _ => (mkRat 1 4, mkRat 3 4)
    featureImportance := none }

/-- A concrete loaded bundle with the standard feature order. -/
def bundle0 : ModelBundle :=
  { model := model0, cat_features := [], feature_order := standardFeatureOrder }

/-- The example request of the specification, all eight fields present. -/
def fullReq0 : RequestData :=
  [("Department", .str "Sales"), ("Overtime", .str "0 hours"), ("Promotion_Gap", .num 2),
   ("Job_Satisfaction", .str "Neutral"), ("AI_Automation_Risk", .str "Low"),
   ("Recent_Layoffs", .str "No"), ("Job_Security", .str "Secure"),
   ("Market_Demand", .str "Difficult")]

/-- The response body `predict` produces for `bundle0` and `fullReq0`. -/
def result0 : PredictResult :=
  { prediction := 1, prediction_label := "Yes (Likely to Leave)",
    probability_stay := mkRat 1 4, probability_leave := mkRat 3 4,
    confidence := mkRat 3 4, feature_importance := none }

/-- A nonempty request supplying only one of the required fields. -/
def reqOnlyDept : RequestData := [("Department", .str "Sales")]

/-- A request with several required fields absent and a non-numeric
`Promotion_Gap` value. -/
def reqMissingAbc : RequestData :=
  [("Department", .str "Sales"), ("Promotion_Gap", .str "abc")]

/-- The full example request with a non-numeric `Promotion_Gap` string. -/
def fullReqAbc : RequestData :=
  [("Department", .str "Sales"), ("Overtime", .str "0 hours"), ("Promotion_Gap", .str "abc"),
   ("Job_Satisfaction", .str "Neutral"), ("AI_Automation_Risk", .str "Low"),
   ("Recent_Layoffs", .str "No"), ("Job_Security", .str "Secure"),
   ("Market_Demand", .str "Difficult")]

/-- The full example request with the en-dash Overtime spelling. -/
def fullReqDash : RequestData :=
  [("Department", .str "Sales"), ("Overtime", .str "1–10 hours"), ("Promotion_Gap", .num 2),
   ("Job_Satisfaction", .str "Neutral"), ("AI_Automation_Risk", .str "Low"),
   ("Recent_Layoffs", .str "No"), ("Job_Security", .str "Secure"),
   ("Market_Demand", .str "Difficult")]

/-- The full example request with the hyphen Overtime spelling. -/
def fullReqHyph : RequestData :=
  [("Department", .str "Sales"), ("Overtime", .str "1-10 hours"), ("Promotion_Gap", .num 2),
   ("Job_Satisfaction", .str "Neutral"), ("AI_Automation_Risk", .str "Low"),
   ("Recent_Layoffs", .str "No"), ("Job_Security", .str "Secure"),
   ("Market_Demand", .str "Difficult")]

/-- A nonempty request carrying only an unrecognized field. -/
def junkReq : RequestData := [("Comments", .str "none")]

/-- The full example request with an extra unrecognized field appended. -/
def fullReqExtra : RequestData := fullReq0 ++ [("Comments", .str "none")]

/-- The DataFrame row `buildRow` produces for `fullReq0`. -/
def row0 : List (String × CellValue) :=
  [("Department", .text "Sales"), ("Overtime", .text "0 hours"), ("Promotion_Gap", .real 2),
   ("Job_Satisfaction", .text "Neutral"), ("AI_Automation_Risk", .text "Low"),
   ("Recent_Layoffs", .text "No"), ("Job_Security", .text "Secure"),
   ("Market_Demand", .text "Difficult")]

/-- The reordered cell list handed to the model for `fullReq0`. -/
def cells0 : List CellValue :=
  [.text "Sales", .text "0 hours", .real 2, .text "Neutral", .text "Low",
   .text "No", .text "Secure", .text "Difficult"]

theorem isEmpty_false_of_ne_nil {α : Type _} {l : List α} (h : l ≠ []) : l.isEmpty = false := by
  cases l with
  | nil => exact absurd rfl h
  | cons a t => rfl

/-- With a loaded bundle, a nonempty request with a nonempty set of absent
required fields is answered by the 400 missing-fields message. -/
theorem predict_missing (b : ModelBundle) (d : RequestData) (hne : d ≠ [])
    (hmiss : b.feature_order.filter (fun f => (d.lookup f).isNone) ≠ []) :
    predict (some b) (some d) =
      .clientError (missingMsg (b.feature_order.filter (fun f => (d.lookup f).isNone))) := by
  have h1 : d.isEmpty = false := isEmpty_false_of_ne_nil hne
  have h2 : (b.feature_order.filter (fun f => (d.lookup f).isNone)).isEmpty = false :=
    isEmpty_false_of_ne_nil hmiss
  simp only [predict, h1, h2, Bool.false_eq_true, if_false]

/-- Inversion for successful predict calls: a 200 response can only arise
from a loaded bundle, with the body assembled by `runModel`. -/
theorem predict_ok_inv {st : Option ModelBundle} {data : Option RequestData} {r : PredictResult}
    (hok : predict st data = .ok r) :
    ∃ b cells, st = some b ∧ r = runModel b cells := by
  cases st with
  | none => exact absurd hok (by simp [predict])
  | some b =>
    cases data with
    | none => exact absurd hok (by simp [predict])
    | some d =>
      refine ⟨b, ?_⟩
      simp only [predict] at hok
      split at hok
      · exact absurd hok (by simp)
      · split at hok
        · split at hok
          · exact absurd hok (by simp)
          · split at hok
            · exact absurd hok (by simp)
            next cells heq =>
              exact ⟨cells, rfl, (PredictResponse.ok.injEq _ _ ▸ hok).symm⟩
        · exact absurd hok (by simp)

/-- A nonempty absent-field witness forces the missing-fields filter to be
a nonempty list. -/
theorem filter_missing_ne_nil {b : ModelBundle} {d : RequestData}
    (hmiss : ∃ f ∈ b.feature_order, d.lookup f = none) :
    b.feature_order.filter (fun f => (d.lookup f).isNone) ≠ [] := by
  obtain ⟨f0, hf0, hl0⟩ := hmiss
  intro h
  have hm : f0 ∈ b.feature_order.filter (fun f => (d.lookup f).isNone) :=
    List.mem_filter.mpr ⟨hf0, by simp [hl0]⟩
  simp [h] at hm

/-- C1 counterexample: with a loaded bundle, the empty request omits every
required field, yet predict answers it with the no-data client error, whose
message does not name the absent field Department (nor any other). -/
theorem C1_counterexample :
    predict (some bundle0) (some ([] : RequestData)) = .clientError noDataMsg ∧
    ¬ List.IsInfix "Department".data noDataMsg.data :=
  ⟨rfl, by decide⟩

/-- C1 (amended): for every loaded bundle and NONEMPTY parsed request that
omits at least one required field, predict fails with a client error whose
message is assembled from the list of all absent required fields, and every
absent required field occurs in that list (all-at-once validation). -/
theorem C1_missing_fields_all_at_once (b : ModelBundle) (d : RequestData) (hne : d ≠ [])
    (hmiss : ∃ f ∈ b.feature_order, d.lookup f = none) :
    predict (some b) (some d) =
      .clientError (missingMsg (b.feature_order.filter (fun f => (d.lookup f).isNone))) ∧
    ∀ f ∈ b.feature_order, d.lookup f = none →
      f ∈ b.feature_order.filter (fun f => (d.lookup f).isNone) := by
  refine ⟨predict_missing b d hne (filter_missing_ne_nil hmiss), ?_⟩
  intro f hf hnone
  exact List.mem_filter.mpr ⟨hf, by simp [hnone]⟩

/-- C1 witness: the amended theorem at the concrete one-field request. -/
theorem C1_witness :
    predict (some bundle0) (some reqOnlyDept) =
      .clientError (missingMsg (bundle0.feature_order.filter
        (fun f => (reqOnlyDept.lookup f).isNone))) ∧
    ∀ f ∈ bundle0.feature_order, reqOnlyDept.lookup f = none →
      f ∈ bundle0.feature_order.filter (fun f => (reqOnlyDept.lookup f).isNone) :=
  C1_missing_fields_all_at_once bundle0 reqOnlyDept (by decide)
    ⟨"Overtime", by decide, by decide⟩

/-- C2 counterexample: even with a model bundle loaded, a predict call
whose body is not parseable as JSON is answered with the 500 server error
(`request.json` raises inside the handler's try block and the blanket
`except` returns the exception's text), not with a 400 client error. -/
theorem C2_counterexample :
    predict (some bundle0) none = .serverError parseFailMsg ∧
    (predict (some bundle0) none).isClientError = false :=
  ⟨rfl, rfl⟩

/-- C2 (amended): with a model bundle loaded, a request body that cannot be
parsed as JSON (unparseable, or empty — parsing it raises) is returned as a
server error (HTTP 500) of shape \x7berror: string\x7d, while a body that
parses to a falsy value, such as the empty JSON object, fails with the
InvalidRequest condition as a client error (HTTP 400) of shape
\x7berror: string\x7d carrying the no-data message. -/
theorem C2_invalid_request (b : ModelBundle) :
    predict (some b) none = .serverError parseFailMsg ∧
    predict (some b) (some []) = .clientError noDataMsg :=
  ⟨rfl, rfl⟩

/-- C7: when the bundle file is absent at startup, the caught
FileNotFoundError leaves the process running with no bundle loaded (degraded
mode), the health check still succeeds and reports model_loaded = false, and
every subsequent predict call is answered with the 500 server error rather
than a crash. -/
theorem C7_degraded_mode :
    startup .absent = some none ∧
    health_check none = { status := "healthy", model_loaded := false } ∧
    ∀ data, predict none data = .serverError notLoadedMsg :=
  ⟨rfl, rfl, fun _ => rfl⟩

/-- C10 counterexample: the empty request is missing every required field,
yet predict does not return the missing-fields message for it. -/
theorem C10_counterexample :
    predict (some bundle0) (some ([] : RequestData)) = .clientError noDataMsg ∧
    noDataMsg ≠ missingMsg standardFeatureOrder :=
  ⟨rfl, by decide⟩

/-- C10 (amended): for every loaded bundle and NONEMPTY parsed request
missing at least one required field, predict returns the missing-fields
client error before any type coercion is attempted — so no coercion error
can be produced, whatever the Promotion_Gap value — and the listed fields
are a sublist of feature_order, hence appear in feature_order order. -/
theorem C10_validation_precedence (b : ModelBundle) (d : RequestData) (hne : d ≠ [])
    (hmiss : ∃ f ∈ b.feature_order, d.lookup f = none) :
    predict (some b) (some d) =
      .clientError (missingMsg (b.feature_order.filter (fun f => (d.lookup f).isNone))) ∧
    (b.feature_order.filter (fun f => (d.lookup f).isNone)).Sublist b.feature_order :=
  ⟨predict_missing b d hne (filter_missing_ne_nil hmiss), List.filter_sublist _⟩

/-- C10 witness: the amended theorem at a request that both misses required
fields and carries a non-numeric Promotion_Gap value. -/
theorem C10_witness :
    predict (some bundle0) (some reqMissingAbc) =
      .clientError (missingMsg (bundle0.feature_order.filter
        (fun f => (reqMissingAbc.lookup f).isNone))) ∧
    (bundle0.feature_order.filter (fun f => (reqMissingAbc.lookup f).isNone)).Sublist
      bundle0.feature_order :=
  C10_validation_precedence bundle0 reqMissingAbc (by decide)
    ⟨"Overtime", by decide, by decide⟩

/-- C3: whenever predict succeeds, if the loaded model's probability call
returns rows with entries in [0,1] summing to 1, then the returned result
satisfies probability.stay + probability.leave = 1 and confidence equals the
maximum of the two probabilities. -/
theorem C3_probability_coherence (st : Option ModelBundle) (data : Option RequestData)
    (r : PredictResult)
    (hmodel : ∀ b, st = some b → ∀ cells,
      0 ≤ (b.model.predictProba cells).1 ∧ 0 ≤ (b.model.predictProba cells).2 ∧
      (b.model.predictProba cells).1 + (b.model.predictProba cells).2 = 1)
    (hok : predict st data = .ok r) :
    r.probability_stay + r.probability_leave = 1 ∧
    r.confidence = max r.probability_stay r.probability_leave := by
  obtain ⟨b, cells, hst, hr⟩ := predict_ok_inv hok
  subst hr
  exact ⟨(hmodel b hst cells).2.2, rfl⟩

/-- C3 witness: the theorem at the concrete bundle and full request. -/
theorem C3_witness :
    result0.probability_stay + result0.probability_leave = 1 ∧
    result0.confidence = max result0.probability_stay result0.probability_leave :=
  C3_probability_coherence (some bundle0) (some fullReq0) result0
    (by
      intro b hb cells
      injection hb with hb
      subst hb
      refine ⟨?_, ?_, ?_⟩
      · show (0 : ℚ) ≤ mkRat 1 4
        decide
      · show (0 : ℚ) ≤ mkRat 3 4
        decide
      show mkRat 1 4 + mkRat 3 4 = 1
      rw [Rat.mkRat_eq_div, Rat.mkRat_eq_div]
      norm_num)
    (by decide)

/-- C4: in every successful prediction response, the label is
"Yes (Likely to Leave)" iff prediction = 1, and otherwise the label is
"No (Likely to Stay)". -/
theorem C4_label_iff (st : Option ModelBundle) (data : Option RequestData) (r : PredictResult)
    (hok : predict st data = .ok r) :
    (r.prediction_label = "Yes (Likely to Leave)" ↔ r.prediction = 1) ∧
    (r.prediction ≠ 1 → r.prediction_label = "No (Likely to Stay)") := by
  obtain ⟨b, cells, hst, hr⟩ := predict_ok_inv hok
  subst hr
  by_cases h : b.model.predictLabel cells = 1 <;> simp [runModel, h]

/-- C4 witness: the theorem at the concrete bundle and full request. -/
theorem C4_witness :
    (result0.prediction_label = "Yes (Likely to Leave)" ↔ result0.prediction = 1) ∧
    (result0.prediction ≠ 1 → result0.prediction_label = "No (Likely to Stay)") :=
  C4_label_iff (some bundle0) (some fullReq0) result0 (by decide)

/-- C5: the Promotion_Gap coercion accepts the numeric-looking string "3",
coercing it to the float 3.0; a request that is otherwise complete but
carries the non-numeric string "abc" makes the request fail with the
coercion error (`float()` raising, surfaced through the handler's blanket
exception mapping). -/
theorem C5_promotion_gap_coercion (b : ModelBundle) (d : RequestData)
    (hfo : b.feature_order = standardFeatureOrder)
    (h8 : ∀ f ∈ standardFeatureOrder, (d.lookup f).isSome = true)
    (habc : d.lookup "Promotion_Gap" = some (.str "abc")) :
    toFloat (.str "3") = .ok 3 ∧
    predict (some b) (some d) = .serverError (floatErrMsg (.str "abc")) := by
  refine ⟨rfl, ?_⟩
  obtain ⟨vd, hvd⟩ := Option.isSome_iff_exists.mp (h8 "Department" (by decide))
  obtain ⟨vo, hvo⟩ := Option.isSome_iff_exists.mp (h8 "Overtime" (by decide))
  have hne : d ≠ [] := by
    intro h
    subst h
    simp [List.lookup_nil] at hvd
  have hbr : buildRow d = .error (floatErrMsg (.str "abc")) := by
    unfold buildRow
    rw [hvd, hvo, habc]
    rfl
  have hmiss : b.feature_order.filter (fun f => (d.lookup f).isNone) = [] := by
    rw [hfo]
    apply List.filter_eq_nil_iff.mpr
    intro f hf
    have hs := h8 f hf
    cases hx : d.lookup f with
    | none => rw [hx] at hs; simp at hs
    | some v => simp [hx]
  simp only [predict, isEmpty_false_of_ne_nil hne, Bool.false_eq_true, if_false, hmiss,
    List.isEmpty_nil, if_true, hbr]

/-- C5 witness: the theorem at the concrete full request whose
Promotion_Gap value is the string "abc". -/
theorem C5_witness :
    toFloat (.str "3") = .ok 3 ∧
    predict (some bundle0) (some fullReqAbc) = .serverError (floatErrMsg (.str "abc")) :=
  C5_promotion_gap_coercion bundle0 fullReqAbc rfl (by decide) (by decide)

theorem except_bind_ok {ε α β : Type _} (a : α) (f : α → Except ε β) :
    (Except.ok a : Except ε α) >>= f = f a := rfl

/-- Only the dash-normalized text of the Overtime value enters the row. -/
theorem buildRowOf_overtime_congr (depV pgV jsV arV rlV secV mdV : Option JValue)
    (v1 v2 : JValue) (h : normalizeEnDash (pyStr v1) = normalizeEnDash (pyStr v2)) :
    buildRowOf depV (some v1) pgV jsV arV rlV secV mdV =
    buildRowOf depV (some v2) pgV jsV arV rlV secV mdV := by
  unfold buildRowOf
  simp only [getArg, except_bind_ok, h]

/-- The characterwise dash normalization is idempotent. -/
theorem normalizeEnDash_idem (s : String) :
    normalizeEnDash (normalizeEnDash s) = normalizeEnDash s := by
  unfold normalizeEnDash
  show (⟨List.map _ (List.map _ s.data)⟩ : String) = _
  rw [List.map_map]
  refine congrArg String.mk (List.map_congr_left ?_)
  intro c _
  by_cases h : c = '–' <;> simp [h, Function.comp]

/-- C6: with any loaded bundle, an Overtime value spelled with an en-dash
is treated identically to the hyphenated spelling: two requests agreeing on
everything else produce the same model input row and the same response, and
the dash normalization is idempotent, so an already-normalized value is
unchanged. -/
theorem C6_endash_equivalence (b : ModelBundle) (d1 d2 : RequestData)
    (hagree : ∀ f, f ≠ "Overtime" → d1.lookup f = d2.lookup f)
    (h1 : d1.lookup "Overtime" = some (.str "1–10 hours"))
    (h2 : d2.lookup "Overtime" = some (.str "1-10 hours")) :
    buildRow d1 = buildRow d2 ∧
    predict (some b) (some d1) = predict (some b) (some d2) ∧
    ∀ s, normalizeEnDash (normalizeEnDash s) = normalizeEnDash s := by
  have hrow : buildRow d1 = buildRow d2 := by
    unfold buildRow
    rw [hagree "Department" (by decide), hagree "Promotion_Gap" (by decide),
        hagree "Job_Satisfaction" (by decide), hagree "AI_Automation_Risk" (by decide),
        hagree "Recent_Layoffs" (by decide), hagree "Job_Security" (by decide),
        hagree "Market_Demand" (by decide), h1, h2]
    exact buildRowOf_overtime_congr _ _ _ _ _ _ _ _ _ (by decide)
  have hfilter : b.feature_order.filter (fun f => (d1.lookup f).isNone) =
      b.feature_order.filter (fun f => (d2.lookup f).isNone) := by
    apply List.filter_congr
    intro f _
    by_cases hfo : f = "Overtime"
    · subst hfo
      rw [h1, h2]
      rfl
    · rw [hagree f hfo]
  have hne1 : d1 ≠ [] := by
    intro h
    subst h
    simp [List.lookup_nil] at h1
  have hne2 : d2 ≠ [] := by
    intro h
    subst h
    simp [List.lookup_nil] at h2
  refine ⟨hrow, ?_, normalizeEnDash_idem⟩
  simp only [predict, isEmpty_false_of_ne_nil hne1, isEmpty_false_of_ne_nil hne2,
    Bool.false_eq_true, if_false, hfilter, hrow]

/-- C6 witness: the theorem at the two concrete spellings of the example
request, with the idempotence conjunct instantiated at the en-dash value. -/
theorem C6_witness :
    buildRow fullReqDash = buildRow fullReqHyph ∧
    predict (some bundle0) (some fullReqDash) = predict (some bundle0) (some fullReqHyph) ∧
    normalizeEnDash (normalizeEnDash "1–10 hours") = normalizeEnDash "1–10 hours" := by
  have h := C6_endash_equivalence bundle0 fullReqDash fullReqHyph
    (by
      intro f hf
      have hb : (f == "Overtime") = false := by simp [hf]
      simp [fullReqDash, fullReqHyph, List.lookup_cons, hb])
    (by decide) (by decide)
  exact ⟨h.1, h.2.1, h.2.2 "1–10 hours"⟩

/-- C8: when the loaded model does not support the feature-importance call,
a request that passes validation and coercion still succeeds: the full
result is returned, with the feature_importance field omitted (none) rather
than the request failing. -/
theorem C8_importance_best_effort (b : ModelBundle) (d : RequestData)
    (row : List (String × CellValue)) (cells : List CellValue) (hne : d ≠ [])
    (hmiss : b.feature_order.filter (fun f => (d.lookup f).isNone) = [])
    (hrow : buildRow d = .ok row)
    (hcells : reorderRow row b.feature_order = .ok cells)
    (hnofi : b.model.featureImportance = none) :
    predict (some b) (some d) =
      .ok { prediction := b.model.predictLabel cells
            prediction_label := if b.model.predictLabel cells = 1
              then "Yes (Likely to Leave)" else "No (Likely to Stay)"
            probability_stay := (b.model.predictProba cells).1
            probability_leave := (b.model.predictProba cells).2
            confidence := max (b.model.predictProba cells).1 (b.model.predictProba cells).2
            feature_importance := none } := by
  simp only [predict, isEmpty_false_of_ne_nil hne, Bool.false_eq_true, if_false, hmiss,
    List.isEmpty_nil, if_true, hrow, hcells, runModel, hnofi]

/-- C8 witness: the theorem at the concrete bundle (whose model has no
feature-importance support) and the full example request. -/
theorem C8_witness :
    predict (some bundle0) (some fullReq0) =
      .ok { prediction := bundle0.model.predictLabel cells0
            prediction_label := if bundle0.model.predictLabel cells0 = 1
              then "Yes (Likely to Leave)" else "No (Likely to Stay)"
            probability_stay := (bundle0.model.predictProba cells0).1
            probability_leave := (bundle0.model.predictProba cells0).2
            confidence := max (bundle0.model.predictProba cells0).1
              (bundle0.model.predictProba cells0).2
            feature_importance := none } :=
  C8_importance_best_effort bundle0 fullReq0 row0 cells0 (by decide) rfl rfl rfl rfl

/-- C9 counterexample: the empty request and a request holding only an
unrecognized field agree on every one of the eight required fields (none of
them is present in either), yet predict answers them differently. -/
theorem C9_counterexample :
    (standardFeatureOrder.all
      (fun f => ([] : RequestData).lookup f == junkReq.lookup f)) = true ∧
    predict (some bundle0) (some ([] : RequestData)) ≠ predict (some bundle0) (some junkReq) :=
  ⟨by decide, by decide⟩

/-- C9 (amended): with a loaded bundle whose feature order is the standard
eight fields, any two NONEMPTY parsed requests that agree on those eight
fields receive identical responses; extra unrecognized fields are ignored. -/
theorem C9_depends_only_on_features (b : ModelBundle) (d1 d2 : RequestData)
    (hfo : b.feature_order = standardFeatureOrder)
    (h1 : d1 ≠ []) (h2 : d2 ≠ [])
    (hagree : ∀ f ∈ standardFeatureOrder, d1.lookup f = d2.lookup f) :
    predict (some b) (some d1) = predict (some b) (some d2) := by
  have hrow : buildRow d1 = buildRow d2 := by
    unfold buildRow
    rw [hagree "Department" (by decide), hagree "Overtime" (by decide),
        hagree "Promotion_Gap" (by decide), hagree "Job_Satisfaction" (by decide),
        hagree "AI_Automation_Risk" (by decide), hagree "Recent_Layoffs" (by decide),
        hagree "Job_Security" (by decide), hagree "Market_Demand" (by decide)]
  have hfilter : b.feature_order.filter (fun f => (d1.lookup f).isNone) =
      b.feature_order.filter (fun f => (d2.lookup f).isNone) := by
    apply List.filter_congr
    intro f hf
    rw [hagree f (hfo ▸ hf)]
  simp only [predict, isEmpty_false_of_ne_nil h1, isEmpty_false_of_ne_nil h2,
    Bool.false_eq_true, if_false, hfilter, hrow]

/-- C9 witness: the amended theorem at the full request and the same
request extended with an extra unrecognized field. -/
theorem C9_witness :
    predict (some bundle0) (some fullReq0) = predict (some bundle0) (some fullReqExtra) :=
  C9_depends_only_on_features bundle0 fullReq0 fullReqExtra rfl (by decide) (by decide)
    (by decide)

end AttritionApp
